import Mathlib

set_option autoImplicit false

/-!
Shallow embedding of `src/scripts/helpers/decode-xcm-generic.ts` (the generic
multi-version XCM message decoder) and proofs of the specified properties.

Bytes are modelled as `List Nat`; a thrown JavaScript value is modelled by its
optional `.message` field (`Option String`); fallible calls return `Except`.
The external decode capability (`provider.createType`) is a parameter of the
splitter, as in the source, where `provider` is passed in.
-/

/-- A JavaScript value that is either a genuine array of instructions or a
non-array object wrapping an instruction list (the ambiguous `asV1` payload
shape noted at line 53 of the source: `asV1` may be a `Vec<Instr>` or an
`XcmV1` wrapper object). `Array.isArray` distinguishes the two. -/
inductive JsVal (Instr : Type) where
  | arr : List Instr → JsVal Instr
  | obj : List Instr → JsVal Instr
deriving DecidableEq, Repr

/-- Model of `Array.isArray` applied to a `JsVal`. -/
def JsVal.isArrayVal {Instr : Type} : JsVal Instr → Bool
  | .arr _ => true
  | .obj _ => false

/-- A decoded `XcmVersionedXcm` value: version discriminant plus payload.
`isV5`..`isV1` of the source correspond to the constructors; a discriminant
outside the closed set (all `isVn` predicates false) is `unknownVersion`,
which still carries a tag code and a payload that the source never reads. -/
inductive XcmVersionedXcm (Instr : Type) where
  | V1 : JsVal Instr → XcmVersionedXcm Instr
  | V2 : List Instr → XcmVersionedXcm Instr
  | V3 : List Instr → XcmVersionedXcm Instr
  | V4 : List Instr → XcmVersionedXcm Instr
  | V5 : List Instr → XcmVersionedXcm Instr
  | unknownVersion : Nat → List Instr → XcmVersionedXcm Instr
deriving DecidableEq, Repr

/-- Result record of `unwrapVersionedXcm`: the version label and the
`instructions` value (kept as a `JsVal` because the V1 branch of the source
can hand back a non-array object unchanged, merely cast to `any[]`). -/
structure UnwrapResult (Instr : Type) where
  version : String
  instructions : JsVal Instr
deriving DecidableEq, Repr

/-- Embedding of `unwrapVersionedXcm` (source lines 41-59): the `isV5`,
`isV4`, `isV3`, `isV2`, `isV1` checks in that order become the match arms;
the V1 arm embeds `Array.isArray(v1) ? v1 : (v1 as any[])` literally (the
cast is a runtime identity); when no discriminant matches, the fallback
`{ version: "V5", instructions: [] }` is returned. -/
def unwrapVersionedXcm {Instr : Type} : XcmVersionedXcm Instr → UnwrapResult Instr
  | .V5 xs => ⟨"V5", .arr xs⟩
  | .V4 xs => ⟨"V4", .arr xs⟩
  | .V3 xs => ⟨"V3", .arr xs⟩
  | .V2 xs => ⟨"V2", .arr xs⟩
  | .V1 v1 => ⟨"V1", if v1.isArrayVal then v1 else v1⟩
  | .unknownVersion _ _ => ⟨"V5", .arr []⟩

/-- Instruction tags: the fifteen discriminants probed by
`classifyInstruction`, plus `unrecognized` for any tag absent from the
table (payload fields are not inspected by the classifier). -/
inductive InstrTag where
  | ReserveAssetDeposited
  | DepositAsset
  | WithdrawAsset
  | BuyExecution
  | Transact
  | DescendOrigin
  | SetAppendix
  | ExpectTransactStatus
  | ReportTransactStatus
  | SetTopic
  | ClearTopic
  | ExchangeAsset
  | DepositReserveAsset
  | TransferAsset
  | TransferReserveAsset
  | unrecognized : Nat → InstrTag
deriving DecidableEq, Repr

/-- Duck-typed predicate `instr.isReserveAssetDeposited`. -/
def InstrTag.isReserveAssetDeposited : InstrTag → Bool
  | .ReserveAssetDeposited => true
  | _ => false

/-- Duck-typed predicate `instr.isDepositAsset`. -/
def InstrTag.isDepositAsset : InstrTag → Bool
  | .DepositAsset => true
  | _ => false

/-- Duck-typed predicate `instr.isWithdrawAsset`. -/
def InstrTag.isWithdrawAsset : InstrTag → Bool
  | .WithdrawAsset => true
  | _ => false

/-- Duck-typed predicate `instr.isBuyExecution`. -/
def InstrTag.isBuyExecution : InstrTag → Bool
  | .BuyExecution => true
  | _ => false

/-- Duck-typed predicate `instr.isTransact`. -/
def InstrTag.isTransact : InstrTag → Bool
  | .Transact => true
  | _ => false

/-- Duck-typed predicate `instr.isDescendOrigin`. -/
def InstrTag.isDescendOrigin : InstrTag → Bool
  | .DescendOrigin => true
  | _ => false

/-- Duck-typed predicate `instr.isSetAppendix`. -/
def InstrTag.isSetAppendix : InstrTag → Bool
  | .SetAppendix => true
  | _ => false

/-- Duck-typed predicate `instr.isExpectTransactStatus`. -/
def InstrTag.isExpectTransactStatus : InstrTag → Bool
  | .ExpectTransactStatus => true
  | _ => false

/-- Duck-typed predicate `instr.isReportTransactStatus`. -/
def InstrTag.isReportTransactStatus : InstrTag → Bool
  | .ReportTransactStatus => true
  | _ => false

/-- Duck-typed predicate `instr.isSetTopic`. -/
def InstrTag.isSetTopic : InstrTag → Bool
  | .SetTopic => true
  | _ => false

/-- Duck-typed predicate `instr.isClearTopic`. -/
def InstrTag.isClearTopic : InstrTag → Bool
  | .ClearTopic => true
  | _ => false

/-- Duck-typed predicate `instr.isExchangeAsset`. -/
def InstrTag.isExchangeAsset : InstrTag → Bool
  | .ExchangeAsset => true
  | _ => false

/-- Duck-typed predicate `instr.isDepositReserveAsset`. -/
def InstrTag.isDepositReserveAsset : InstrTag → Bool
  | .DepositReserveAsset => true
  | _ => false

/-- Duck-typed predicate `instr.isTransferAsset`. -/
def InstrTag.isTransferAsset : InstrTag → Bool
  | .TransferAsset => true
  | _ => false

/-- Duck-typed predicate `instr.isTransferReserveAsset`. -/
def InstrTag.isTransferReserveAsset : InstrTag → Bool
  | .TransferReserveAsset => true
  | _ => false

/-- Embedding of `classifyInstruction` (source lines 66-88): the chain of
`if (instr.isX) return "label";` statements, in source order, ending with
`return undefined`. -/
def classifyInstruction (instr : InstrTag) : Option String :=
  if instr.isReserveAssetDeposited then some "Reserve Asset Deposited"
  else if instr.isDepositAsset then some "Deposit Asset"
  else if instr.isWithdrawAsset then some "Withdraw Asset"
  else if instr.isBuyExecution then some "Buy Execution"
  else if instr.isTransact then some "Transact"
  else if instr.isDescendOrigin then some "Descend Origin"
  else if instr.isSetAppendix then some "Set Appendix"
  else if instr.isExpectTransactStatus then some "Expect Transact Status"
  else if instr.isReportTransactStatus then some "Report Transact Status"
  else if instr.isSetTopic then some "Set Topic"
  else if instr.isClearTopic then some "Clear Topic"
  else if instr.isExchangeAsset then some "Exchange Asset"
  else if instr.isDepositReserveAsset then some "Deposit Reserve Asset"
  else if instr.isTransferAsset then some "Transfer Asset"
  else if instr.isTransferReserveAsset then some "Transfer Reserve Asset"
  else none

/-- The classifier's table as an ordered list of (tag predicate, label)
pairs, in the exact probing order of the source. -/
def classificationTable : List ((InstrTag → Bool) × String) :=
  [ (InstrTag.isReserveAssetDeposited, "Reserve Asset Deposited"),
    (InstrTag.isDepositAsset, "Deposit Asset"),
    (InstrTag.isWithdrawAsset, "Withdraw Asset"),
    (InstrTag.isBuyExecution, "Buy Execution"),
    (InstrTag.isTransact, "Transact"),
    (InstrTag.isDescendOrigin, "Descend Origin"),
    (InstrTag.isSetAppendix, "Set Appendix"),
    (InstrTag.isExpectTransactStatus, "Expect Transact Status"),
    (InstrTag.isReportTransactStatus, "Report Transact Status"),
    (InstrTag.isSetTopic, "Set Topic"),
    (InstrTag.isClearTopic, "Clear Topic"),
    (InstrTag.isExchangeAsset, "Exchange Asset"),
    (InstrTag.isDepositReserveAsset, "Deposit Reserve Asset"),
    (InstrTag.isTransferAsset, "Transfer Asset"),
    (InstrTag.isTransferReserveAsset, "Transfer Reserve Asset") ]

/-- A thrown JavaScript value, modelled by its optional `.message` field
(the source reads only `e?.message`). -/
abbrev JsError := Option String

/-- The external decode capability. `createType` models
`provider.createType(schemaName, bytes)`, which returns a decoded fragment
or throws; `toU8a` models the fragment method `fragment.toU8a()` (re-encoding
to raw bytes), kept on the provider because in the source the codec that
re-encodes a fragment is the registry the fragment was created by. -/
structure Provider (Msg : Type) where
  createType : String → List Nat → Except JsError Msg
  toU8a : Msg → List Nat

/-- Embedding of the try/catch ladder at source lines 109-118: attempt
`createType("XcmVersionedXcm", remaining)`; on a throw `e1`, attempt
`createType("StagingXcmVersionedXcm", remaining)`; on a second throw `e2`,
fail carrying both underlying errors. -/
def resolveFragment {Msg : Type} (p : Provider Msg) (remaining : List Nat) :
    Except (JsError × JsError) Msg :=
  match p.createType "XcmVersionedXcm" remaining with
  | .ok fragment => .ok fragment
  | .error e1 =>
    match p.createType "StagingXcmVersionedXcm" remaining with
    | .ok fragment => .ok fragment
    | .error e2 => .error (e1, e2)

/-- Embedding of the message logged at source line 115 when both schemas
fail: `e2?.message ?? e1?.message ?? "Failed to decode XcmVersionedXcm"`. -/
def loggedDecodeError (e1 e2 : JsError) : String :=
  match e2 with
  | some s => s
  | none =>
    match e1 with
    | some s => s
    | none => "Failed to decode XcmVersionedXcm"

/-- Embedding of the `while (remaining.length !== 0)` loop of
`decodeMessageIntoFragmentVec` (source lines 103-125). `fuel` bounds the
number of loop iterations (the source loop has no such bound); `none` means
the loop did not reach its exit condition within `fuel` iterations. On a
resolution failure the loop breaks, returning the fragments accumulated so
far; on success the decoded fragment is appended and
`remaining = remaining.slice(fragment.toU8a().length)` shrinks the view. -/
def splitFragments {Msg : Type} (p : Provider Msg) : Nat → List Nat → Option (List Msg)
  | _, [] => some []
  | 0, _ :: _ => none
  | fuel + 1, x :: rest =>
    match resolveFragment p (x :: rest) with
    | .error _ => some []
    | .ok fragment =>
      match splitFragments p fuel ((x :: rest).drop (p.toU8a fragment).length) with
      | none => none
      | some more => some (fragment :: more)

/-- A hexadecimal digit character. -/
def isHexDigitChar (c : Char) : Bool :=
  (48 ≤ c.toNat && c.toNat ≤ 57) ||
  (97 ≤ c.toNat && c.toNat ≤ 102) ||
  (65 ≤ c.toNat && c.toNat ≤ 70)

/-- Strip one leading `0x` marker from a character list, if present. -/
def stripHexMarker (cs : List Char) : List Char :=
  match cs with
  | c0 :: c1 :: rest => if c0 = Char.ofNat 48 ∧ c1 = Char.ofNat 120 then rest else cs
  | _ => cs

/-- Modelled from the spec: the strict hex-format check done by the external
`isHex` utility of the polkadot util library, which is not part of this
repository — optional `0x` prefix, all remaining characters hex digits,
even digit count. -/
def isHex (input : String) : Bool :=
  let digits := stripHexMarker input.data
  digits.all isHexDigitChar && digits.length % 2 == 0

/-- Value of one hex digit character. -/
def hexDigitVal (c : Char) : Nat :=
  if 48 ≤ c.toNat && c.toNat ≤ 57 then c.toNat - 48
  else if 97 ≤ c.toNat && c.toNat ≤ 102 then c.toNat - 87
  else if 65 ≤ c.toNat && c.toNat ≤ 70 then c.toNat - 55
  else 0

/-- Fold consecutive pairs of hex digits into byte values. -/
def hexPairsToBytes : List Char → List Nat
  | a :: b :: rest => (16 * hexDigitVal a + hexDigitVal b) :: hexPairsToBytes rest
  | _ => []

/-- Modelled from the spec: the external `hexToU8a` conversion of the
polkadot util library, not part of this repository — each pair of hex
digits after the optional `0x` prefix becomes one byte. -/
def hexToU8a (input : String) : List Nat :=
  hexPairsToBytes (stripHexMarker input.data)

/-- Embedding of `hexToU8aSafe` (source lines 132-137): throw
`"Expected hex string for message input"` unless `isHex` accepts the
input, else convert. -/
def hexToU8aSafe (input : String) : Except String (List Nat) :=
  if !(isHex input) then Except.error "Expected hex string for message input"
  else Except.ok (hexToU8a input)

/-- The `Uint8Array | string` parameter of `decodeMessageIntoFragmentVec`. -/
inductive MessageInput where
  | bytes : List Nat → MessageInput
  | str : String → MessageInput

/-- Embedding of `decodeMessageIntoFragmentVec` (source lines 94-126):
a string input goes through `hexToU8aSafe`, whose throw propagates to the
caller as `Except.error`; byte input is used directly; then the splitting
loop runs. The inner `Option` is the loop fuel bound of `splitFragments`. -/
def decodeMessageIntoFragmentVec {Msg : Type} (p : Provider Msg) (fuel : Nat) :
    MessageInput → Except String (Option (List Msg))
  | .bytes bs => Except.ok (splitFragments p fuel bs)
  | .str s =>
    match hexToU8aSafe s with
    | .error e => Except.error e
    | .ok bs => Except.ok (splitFragments p fuel bs)

/-- Modelled from the spec: the decode capability operates on
self-delimiting encodings and is deterministic, so a successful resolution
that consumes exactly its input bytes is unaffected by appending further
bytes. Expressed at the type-resolution boundary. -/
def SelfDelimiting {Msg : Type} (p : Provider Msg) : Prop :=
  ∀ (bs ext : List Nat) (m : Msg),
    resolveFragment p bs = Except.ok m → p.toU8a m = bs →
      resolveFragment p (bs ++ ext) = Except.ok m

/-- Every successfully resolved fragment re-encodes to at least one byte. -/
def ConsumesPositive {Msg : Type} (p : Provider Msg) : Prop :=
  ∀ (bs : List Nat) (m : Msg),
    resolveFragment p bs = Except.ok m → 1 ≤ (p.toU8a m).length

/-- The splitter loop reaches its exit condition within some finite number
of iterations. -/
def SplitterTerminates {Msg : Type} (p : Provider Msg) (bs : List Nat) : Prop :=
  ∃ (fuel : Nat) (r : List Msg), splitFragments p fuel bs = some r

/-- C3: a decoded message whose version discriminant lies outside
{V1, V2, V3, V4, V5} unwraps to the degenerate default
`(version = "V5", instructions = [])` without an error, and a V2 message
carrying an instruction sequence unwraps to `version = "V2"` with exactly
that sequence, order and count preserved. -/
theorem unwrap_fallback_and_v2_preservation :
    (∀ (Instr : Type) (tag : Nat) (payload : List Instr),
      unwrapVersionedXcm (XcmVersionedXcm.unknownVersion tag payload)
        = ⟨"V5", JsVal.arr []⟩)
  ∧ (∀ (Instr : Type) (xs : List Instr),
      unwrapVersionedXcm (XcmVersionedXcm.V2 xs) = ⟨"V2", JsVal.arr xs⟩) :=
  ⟨fun _ _ _ => rfl, fun _ _ => rfl⟩

/-- C4 counterexample: a V1 message whose payload is wrapped one level
(a non-array object around the instruction list) is NOT unwrapped to the
inner sequence — the wrapper comes back unchanged, so the claimed
normalization does not happen. -/
theorem v1_wrapped_not_unwrapped_cex :
    unwrapVersionedXcm (XcmVersionedXcm.V1 (JsVal.obj [InstrTag.DepositAsset]))
      ≠ ⟨"V1", JsVal.arr [InstrTag.DepositAsset]⟩ := by
  decide

/-- C4 amended: the V1 branch tests `Array.isArray` on the payload but
returns the payload unchanged in both branches — a bare instruction
sequence is returned as-is, and a one-level-wrapped payload is returned
still wrapped (no unwrapping occurs); the test has no effect on the
result. -/
theorem v1_payload_returned_unchanged :
    (∀ (Instr : Type) (v1 : JsVal Instr),
      unwrapVersionedXcm (XcmVersionedXcm.V1 v1) = ⟨"V1", v1⟩)
  ∧ (∀ (Instr : Type) (xs : List Instr),
      unwrapVersionedXcm (XcmVersionedXcm.V1 (JsVal.arr xs)) = ⟨"V1", JsVal.arr xs⟩)
  ∧ (∀ (Instr : Type) (xs : List Instr),
      unwrapVersionedXcm (XcmVersionedXcm.V1 (JsVal.obj xs)) = ⟨"V1", JsVal.obj xs⟩) := by
  refine ⟨fun Instr v1 => ?_, fun _ _ => rfl, fun _ _ => rfl⟩
  cases v1 <;> rfl

/-- C9: the classifier agrees with first-match lookup over the fixed
ordered 15-entry table of (tag predicate, label) pairs; a
`DepositAsset`-tagged instruction yields "Deposit Asset"; a tag absent
from the table yields no label; and the table has exactly 15 entries. -/
theorem classifier_first_match :
    (∀ i : InstrTag,
      classifyInstruction i
        = (classificationTable.find? (fun e => e.fst i)).map (fun e => e.snd))
  ∧ classifyInstruction InstrTag.DepositAsset = some "Deposit Asset"
  ∧ (∀ n : Nat, classifyInstruction (InstrTag.unrecognized n) = none)
  ∧ classificationTable.length = 15 := by
  refine ⟨fun i => ?_, rfl, fun n => rfl, rfl⟩
  cases i <;> rfl

/-- The loop exits immediately on an empty remaining buffer. -/
theorem splitFragments_nil {Msg : Type} (p : Provider Msg) (fuel : Nat) :
    splitFragments p fuel [] = some [] := by
  cases fuel <;> rfl

/-- When both schemas fail on the (non-empty) remaining buffer, the loop
breaks, contributing no further fragments. -/
theorem splitFragments_break {Msg : Type} (p : Provider Msg) (fuel : Nat)
    (bs : List Nat) (e : JsError × JsError)
    (hne : bs ≠ []) (h : resolveFragment p bs = Except.error e) :
    splitFragments p (fuel + 1) bs = some [] := by
  cases bs with
  | nil => exact absurd rfl hne
  | cons x rest => simp [splitFragments, h]

/-- When resolution succeeds on the (non-empty) remaining buffer, the
decoded fragment is prepended to whatever the loop yields on the rest. -/
theorem splitFragments_step {Msg : Type} (p : Provider Msg) (fuel : Nat)
    (bs : List Nat) (m : Msg)
    (hne : bs ≠ []) (h : resolveFragment p bs = Except.ok m) :
    splitFragments p (fuel + 1) bs
      = (splitFragments p fuel (bs.drop (p.toU8a m).length)).map (List.cons m) := by
  cases bs with
  | nil => exact absurd rfl hne
  | cons x rest =>
    simp only [splitFragments, h]
    cases splitFragments p fuel ((x :: rest).drop (p.toU8a m).length) <;> rfl

/-- C1: an input that is exactly one valid encoded fragment — resolution
succeeds on it and the decoded value re-encodes to the whole input — is
decoded in a single loop iteration: the result is the one-element list of
that fragment and the remaining buffer becomes empty. -/
theorem singleFragment_roundtrip {Msg : Type} (p : Provider Msg) (bs : List Nat) (m : Msg)
    (hne : bs ≠ [])
    (hdec : resolveFragment p bs = Except.ok m)
    (henc : p.toU8a m = bs) :
    splitFragments p 1 bs = some [m] ∧ bs.drop (p.toU8a m).length = [] := by
  have hdrop : bs.drop (p.toU8a m).length = [] := by
    rw [henc, List.drop_length]
  refine ⟨?_, hdrop⟩
  show splitFragments p (0 + 1) bs = some [m]
  rw [splitFragments_step p 0 bs m hne hdec, hdrop, splitFragments_nil]
  rfl

/-- A concrete test provider: both schemas decode a non-empty buffer to the
singleton list of its first byte and throw a messageless error on an empty
buffer; re-encoding is the identity. -/
def oneByteProvider : Provider (List Nat) where
  createType := fun _ bs =>
    match bs with
    | [] => Except.error none
    | x :: _ => Except.ok [x]
  toU8a := fun m => m

/-- C1 witness at a concrete provider and input. -/
theorem singleFragment_roundtrip_witness :
    splitFragments oneByteProvider 1 [7] = some [[7]]
      ∧ List.drop (oneByteProvider.toU8a [7]).length [7] = [] :=
  singleFragment_roundtrip oneByteProvider [7] [7] (by decide) rfl rfl

/-- C6: the splitter always hands back an ordered, possibly truncated
list — an empty input yields the empty list; when both schemas fail the
loop stops, contributing only the fragments already decoded; a successful
iteration prepends its fragment to the rest of the loop's output; and for
byte input the function never propagates an error to the caller. -/
theorem splitter_total_behavior :
    (∀ (Msg : Type) (p : Provider Msg) (fuel : Nat),
      splitFragments p fuel [] = some [])
  ∧ (∀ (Msg : Type) (p : Provider Msg) (fuel : Nat) (bs : List Nat)
      (e : JsError × JsError), bs ≠ [] → resolveFragment p bs = Except.error e →
        splitFragments p (fuel + 1) bs = some [])
  ∧ (∀ (Msg : Type) (p : Provider Msg) (fuel : Nat) (bs : List Nat) (m : Msg),
      bs ≠ [] → resolveFragment p bs = Except.ok m →
        splitFragments p (fuel + 1) bs
          = (splitFragments p fuel (bs.drop (p.toU8a m).length)).map (List.cons m))
  ∧ (∀ (Msg : Type) (p : Provider Msg) (fuel : Nat) (bs : List Nat),
      ∃ r, decodeMessageIntoFragmentVec p fuel (MessageInput.bytes bs) = Except.ok r) :=
  ⟨fun _ p fuel => splitFragments_nil p fuel,
   fun _ p fuel bs e hne h => splitFragments_break p fuel bs e hne h,
   fun _ p fuel bs m hne h => splitFragments_step p fuel bs m hne h,
   fun _ p fuel bs => ⟨splitFragments p fuel bs, rfl⟩⟩

/-- C7: the resolver returns the primary schema's value whenever the
primary decode succeeds (the fallback plays no part), returns the fallback
schema's value when only the fallback succeeds, and when both fail the
failure carries both underlying errors, the logged message preferring the
fallback's message, then the primary's, then a generic text. -/
theorem typeResolver_primary_fallback {Msg : Type} (p : Provider Msg) (bs : List Nat) :
    (∀ m, p.createType "XcmVersionedXcm" bs = Except.ok m →
      resolveFragment p bs = Except.ok m)
  ∧ (∀ e1 m, p.createType "XcmVersionedXcm" bs = Except.error e1 →
      p.createType "StagingXcmVersionedXcm" bs = Except.ok m →
      resolveFragment p bs = Except.ok m)
  ∧ (∀ e1 e2, p.createType "XcmVersionedXcm" bs = Except.error e1 →
      p.createType "StagingXcmVersionedXcm" bs = Except.error e2 →
      resolveFragment p bs = Except.error (e1, e2))
  ∧ (∀ (e1 : JsError) (s2 : String), loggedDecodeError e1 (some s2) = s2)
  ∧ (∀ s1 : String, loggedDecodeError (some s1) none = s1)
  ∧ loggedDecodeError none none = "Failed to decode XcmVersionedXcm" := by
  refine ⟨?_, ?_, ?_, fun _ _ => rfl, fun _ => rfl, rfl⟩
  · intro m h
    simp [resolveFragment, h]
  · intro e1 m h1 h2
    simp [resolveFragment, h1, h2]
  · intro e1 e2 h1 h2
    simp [resolveFragment, h1, h2]

/-- A provider whose primary schema always throws with a message and whose
staging schema decodes a non-empty buffer to the singleton list of its
first byte. -/
def stagingOnlyProvider : Provider (List Nat) where
  createType := fun name bs =>
    if name = "XcmVersionedXcm" then Except.error (some "primary failed")
    else
      match bs with
      | [] => Except.error none
      | x :: _ => Except.ok [x]
  toU8a := fun m => m

/-- A provider for which both schemas throw: the primary with a plain
message, the staging one with a messageless value. -/
def failingProvider : Provider Unit where
  createType := fun name _ =>
    if name = "XcmVersionedXcm" then Except.error (some "primary failed")
    else Except.error none
  toU8a := fun _ => []

/-- C7 witness: primary-success, fallback-only-success and double-failure
cases at concrete providers and bytes, plus the logged message picking the
primary's message when the fallback's error has none. -/
theorem typeResolver_primary_fallback_witness :
    resolveFragment oneByteProvider [7] = Except.ok [7]
  ∧ resolveFragment stagingOnlyProvider [7] = Except.ok [7]
  ∧ resolveFragment failingProvider [7] = Except.error (some "primary failed", none)
  ∧ loggedDecodeError (some "primary failed") none = "primary failed" :=
  ⟨(typeResolver_primary_fallback oneByteProvider [7]).1 [7] rfl,
   (typeResolver_primary_fallback stagingOnlyProvider [7]).2.1
     (some "primary failed") [7] rfl rfl,
   (typeResolver_primary_fallback failingProvider [7]).2.2.1
     (some "primary failed") none rfl rfl,
   (typeResolver_primary_fallback failingProvider [7]).2.2.2.2.1 "primary failed"⟩

/-- C2: over a self-delimiting decode capability, the concatenation of two
independently-valid single fragments decodes to exactly the two messages,
in input order, each the message obtained by decoding its half standalone;
two loop iterations suffice. -/
theorem concatenation_law {Msg : Type} (p : Provider Msg) (hsd : SelfDelimiting p)
    (a b : List Nat) (ma mb : Msg)
    (hane : a ≠ []) (hbne : b ≠ [])
    (hda : resolveFragment p a = Except.ok ma) (hea : p.toU8a ma = a)
    (hdb : resolveFragment p b = Except.ok mb) (heb : p.toU8a mb = b) :
    splitFragments p 2 (a ++ b) = some [ma, mb] := by
  have habne : a ++ b ≠ [] := by
    cases a with
    | nil => exact absurd rfl hane
    | cons x rest => simp
  have hab : resolveFragment p (a ++ b) = Except.ok ma := hsd a b ma hda hea
  have hdrop1 : (a ++ b).drop (p.toU8a ma).length = b := by
    rw [hea]; exact List.drop_left a b
  have hdrop2 : b.drop (p.toU8a mb).length = [] := by
    rw [heb, List.drop_length]
  show splitFragments p (1 + 1) (a ++ b) = some [ma, mb]
  rw [splitFragments_step p 1 (a ++ b) ma habne hab, hdrop1]
  show (splitFragments p (0 + 1) b).map (List.cons ma) = some [ma, mb]
  rw [splitFragments_step p 0 b mb hbne hdb, hdrop2, splitFragments_nil]
  rfl

/-- The one-byte test provider resolves self-delimiting fragments: a
resolution that consumes exactly its input fixes the input to a single
byte, and appending bytes leaves the decoded value unchanged. -/
theorem oneByteProvider_selfDelimiting : SelfDelimiting oneByteProvider := by
  intro bs ext m h hm
  cases bs with
  | nil => simp [resolveFragment, oneByteProvider] at h
  | cons x rest =>
    simp only [resolveFragment, oneByteProvider] at h hm
    injection h with h2
    subst h2
    have hrest : rest = [] := by
      injection hm with hx htl
      exact htl.symm
    subst hrest
    rfl

/-- C2 witness at a concrete provider: the bytes `[1] ++ [2]` decode to
the two standalone fragments, in order. -/
theorem concatenation_law_witness :
    splitFragments oneByteProvider 2 ([1] ++ [2]) = some [[1], [2]] :=
  concatenation_law oneByteProvider oneByteProvider_selfDelimiting
    [1] [2] [1] [2] (by decide) (by decide) rfl rfl rfl rfl

/-- A provider that always decodes successfully but whose fragments
re-encode to zero bytes, so the loop's `slice` never shrinks the view. -/
def zeroConsumptionProvider : Provider Unit where
  createType := fun _ _ => Except.ok ()
  toU8a := fun _ => []

/-- C8 counterexample: under a decode capability that succeeds while
consuming zero bytes, the splitter loop never reaches its exit condition
on the one-byte input `[1]` — so the loop does not terminate for every
behavior of the decode capability. -/
theorem splitter_nontermination_cex :
    ¬ SplitterTerminates zeroConsumptionProvider [1] := by
  have key : ∀ fuel, splitFragments zeroConsumptionProvider fuel [1] = none := by
    intro fuel
    induction fuel with
    | zero => rfl
    | succ n ih =>
      have hres : resolveFragment zeroConsumptionProvider [1] = Except.ok () := rfl
      rw [splitFragments_step zeroConsumptionProvider n [1] () (by simp) hres]
      have hdrop :
          ([1] : List Nat).drop (zeroConsumptionProvider.toU8a ()).length = [1] := rfl
      rw [hdrop, ih]
      rfl
  rintro ⟨fuel, r, hr⟩
  rw [key fuel] at hr
  exact Option.noConfusion hr

/-- With positive consumption, fuel equal to the remaining buffer length
reaches the loop's exit condition. -/
theorem splitFragments_total_of_consumesPositive {Msg : Type} (p : Provider Msg)
    (h : ConsumesPositive p) :
    ∀ (fuel : Nat) (bs : List Nat), bs.length ≤ fuel →
      ∃ r, splitFragments p fuel bs = some r := by
  intro fuel
  induction fuel with
  | zero =>
    intro bs hb
    have hnil : bs = [] := List.eq_nil_of_length_eq_zero (Nat.le_zero.mp hb)
    subst hnil
    exact ⟨[], rfl⟩
  | succ n ih =>
    intro bs hb
    cases bs with
    | nil => exact ⟨[], rfl⟩
    | cons x rest =>
      cases hres : resolveFragment p (x :: rest) with
      | error e =>
        exact ⟨[], splitFragments_break p n (x :: rest) e (by simp) hres⟩
      | ok m =>
        have hcons := h (x :: rest) m hres
        have hlen : ((x :: rest).drop (p.toU8a m).length).length ≤ n := by
          rw [List.length_drop]
          simp only [List.length_cons] at hb ⊢
          omega
        obtain ⟨r, hr⟩ := ih _ hlen
        refine ⟨m :: r, ?_⟩
        rw [splitFragments_step p n (x :: rest) m (by simp) hres, hr]
        rfl

/-- C8 amended: the claim as stated fails when a successfully decoded
fragment re-encodes to zero bytes (the remaining view never shrinks and
the loop spins forever); under the proviso that every successfully
resolved fragment re-encodes to at least one byte, the loop terminates
for every input buffer — fuel equal to the buffer length suffices. -/
theorem splitter_terminates_of_positive_consumption {Msg : Type} (p : Provider Msg)
    (bs : List Nat) (h : ConsumesPositive p) :
    SplitterTerminates p bs := by
  obtain ⟨r, hr⟩ :=
    splitFragments_total_of_consumesPositive p h bs.length bs (Nat.le_refl _)
  exact ⟨bs.length, r, hr⟩

/-- The one-byte test provider consumes exactly one byte per resolved
fragment. -/
theorem oneByteProvider_consumesPositive : ConsumesPositive oneByteProvider := by
  intro bs m h
  cases bs with
  | nil => simp [resolveFragment, oneByteProvider] at h
  | cons x rest =>
    simp only [resolveFragment, oneByteProvider] at h
    injection h with h2
    subst h2
    rfl

/-- C8 witness: the amended termination theorem at a concrete provider and
buffer. -/
theorem splitter_terminates_witness : SplitterTerminates oneByteProvider [1, 2] :=
  splitter_terminates_of_positive_consumption oneByteProvider [1, 2]
    oneByteProvider_consumesPositive

/-- C5: a string input is accepted exactly when it satisfies the strict
hex format (optional `0x` prefix, all remaining characters hex digits,
even digit count); on any violation the input-format error is raised and
the overall result is that error for every provider and fuel — no decode
result can influence it, so the failure happens before any schema decode
is attempted. -/
theorem hexInput_validation (s : String) :
    (isHex s = false →
      hexToU8aSafe s = Except.error "Expected hex string for message input"
      ∧ ∀ (Msg : Type) (p : Provider Msg) (fuel : Nat),
          decodeMessageIntoFragmentVec p fuel (MessageInput.str s)
            = Except.error "Expected hex string for message input")
  ∧ (isHex s = true →
      hexToU8aSafe s = Except.ok (hexToU8a s)
      ∧ ∀ (Msg : Type) (p : Provider Msg) (fuel : Nat),
          decodeMessageIntoFragmentVec p fuel (MessageInput.str s)
            = Except.ok (splitFragments p fuel (hexToU8a s))) := by
  constructor
  · intro h
    have hsafe : hexToU8aSafe s = Except.error "Expected hex string for message input" := by
      simp [hexToU8aSafe, h]
    exact ⟨hsafe, fun Msg p fuel => by simp [decodeMessageIntoFragmentVec, hsafe]⟩
  · intro h
    have hsafe : hexToU8aSafe s = Except.ok (hexToU8a s) := by
      simp [hexToU8aSafe, h]
    exact ⟨hsafe, fun Msg p fuel => by simp [decodeMessageIntoFragmentVec, hsafe]⟩

/-- C5 witness: an odd digit count and a non-hex character are both
rejected with the input-format error before any decode, and a well-formed
hex string is accepted and split. -/
theorem hexInput_validation_witness :
    decodeMessageIntoFragmentVec oneByteProvider 0 (MessageInput.str "0x123")
      = Except.error "Expected hex string for message input"
  ∧ decodeMessageIntoFragmentVec oneByteProvider 0 (MessageInput.str "12zz")
      = Except.error "Expected hex string for message input"
  ∧ decodeMessageIntoFragmentVec oneByteProvider 1 (MessageInput.str "0x07")
      = Except.ok (splitFragments oneByteProvider 1 (hexToU8a "0x07")) :=
  ⟨((hexInput_validation "0x123").1 (by decide)).2 (List Nat) oneByteProvider 0,
   ((hexInput_validation "12zz").1 (by decide)).2 (List Nat) oneByteProvider 0,
   ((hexInput_validation "0x07").2 (by decide)).2 (List Nat) oneByteProvider 1⟩

/-- C6 witness: empty input, a double-failure stop, a successful step and
the no-error guarantee, each at a concrete provider, fuel and buffer. -/
theorem splitter_total_behavior_witness :
    splitFragments oneByteProvider 5 [] = some []
  ∧ splitFragments failingProvider 1 [5] = some []
  ∧ splitFragments oneByteProvider 2 [7, 8]
      = (splitFragments oneByteProvider 1 (([7, 8] : List Nat).drop
          (oneByteProvider.toU8a [7]).length)).map (List.cons [7])
  ∧ ∃ r, decodeMessageIntoFragmentVec oneByteProvider 0 (MessageInput.bytes [1])
      = Except.ok r :=
  ⟨splitter_total_behavior.1 (List Nat) oneByteProvider 5,
   splitter_total_behavior.2.1 Unit failingProvider 0 [5]
     (some "primary failed", none) (by decide) rfl,
   splitter_total_behavior.2.2.1 (List Nat) oneByteProvider 1 [7, 8] [7]
     (by decide) rfl,
   splitter_total_behavior.2.2.2 (List Nat) oneByteProvider 0 [1]⟩
